import Mathlib

/-!
Verification of the synthetic-speech detector (`synthetic_speech_detector.py`,
with the reliability banding of `streamlit_app.py`) against its specification.

The numeric domain of the Python code (IEEE floats) is embedded as `ℚ`; the
external collaborators (librosa feature functions, numpy aggregations,
the trained classifier and fitted scaler) are parameters of the embedded
pipeline, since their code is not part of this repository.  Everything the
repository itself computes — the class-set validation in `__init__`, the
minimum-length check, fixed-length padding/truncation, peak normalization,
the 67-feature assembly order, the threshold decision and the result/error
dictionaries of `detect`, and the reliability banding of the app — is
translated directly from the source.
-/

namespace SpeechDetector

/-- Target sample rate: the `sr=16000` default of `extract_features`. -/
def sampleRate : ℕ := 16000

/-- Fixed target length in samples: `int(duration * sr)` with the defaults
`duration=4.0`, `sr=16000` (line 37). -/
def targetLength : ℕ := 64000

/-- Minimum accepted trimmed length: `sr * 0.5` samples (line 33). -/
def minLength : ℕ := 8000

/-- Default decision threshold of `SyntheticSpeechDetector.__init__`. -/
def defaultThreshold : ℚ := 7/10

/-- `np.max(np.abs(y))`: the peak absolute amplitude of a signal
(0 for the empty signal). -/
def maxAbs (y : List ℚ) : ℚ := (y.map (fun x => |x|)).foldr max 0

/-- Lines 36–41 of `extract_features`: right-pad with zeros to
`targetLength` when shorter, truncate to `targetLength` when longer. -/
def fixLength (y : List ℚ) : List ℚ :=
  if y.length < targetLength then y ++ List.replicate (targetLength - y.length) 0
  else y.take targetLength

/-- Lines 43–46 of `extract_features`: divide every sample by the peak
absolute amplitude, unless the peak is not positive. -/
def normalize (y : List ℚ) : List ℚ :=
  if maxAbs y > 0 then y.map (fun x => x / maxAbs y) else y

/-- Modelled from the spec (§4.1): the normalization the specification
describes, dividing by (peak absolute amplitude + 1e-6) and skipping only a
zero peak.  Stated for comparison with `normalize`, the code's version. -/
def specNormalize (y : List ℚ) : List ℚ :=
  if maxAbs y = 0 then y else y.map (fun x => x / (maxAbs y + 1/1000000))

/-- The preprocessing stage of `extract_features`: fix the length of the
(already trimmed) signal, then normalize. -/
def preprocess (y : List ℚ) : List ℚ := normalize (fixLength y)

/-- The external DSP/numpy collaborators used by `extract_features`.
Matrix-valued librosa features are row-major: one row per coefficient /
pitch class / sub-band, one column per analysis frame.  `npMeanRows` and
`npStdRows` stand for `np.mean(·, axis=1)` and `np.std(·, axis=1)`;
`npMean` and `npStd` for the scalar `np.mean` / `np.std` of a per-frame
series. -/
structure Ext where
  mfcc : List ℚ → List (List ℚ)
  spectral_centroid : List ℚ → List ℚ
  spectral_rolloff : List ℚ → List ℚ
  spectral_bandwidth : List ℚ → List ℚ
  zero_crossing_rate : List ℚ → List ℚ
  chroma_stft : List ℚ → List (List ℚ)
  spectral_contrast : List ℚ → List (List ℚ)
  npMean : List ℚ → ℚ
  npStd : List ℚ → ℚ
  npMeanRows : List (List ℚ) → List ℚ
  npStdRows : List (List ℚ) → List ℚ

/-- Lines 48–76 of `extract_features`: the 67-feature assembly, in the
source's order — MFCC row means, MFCC row stds, centroid mean/std, rolloff
mean/std, bandwidth mean/std, zero-crossing-rate mean/std, chroma row
means, spectral-contrast row means. -/
def assembleFeatures (e : Ext) (y : List ℚ) : List ℚ :=
  e.npMeanRows (e.mfcc y) ++ e.npStdRows (e.mfcc y)
  ++ [e.npMean (e.spectral_centroid y), e.npStd (e.spectral_centroid y),
      e.npMean (e.spectral_rolloff y), e.npStd (e.spectral_rolloff y),
      e.npMean (e.spectral_bandwidth y), e.npStd (e.spectral_bandwidth y),
      e.npMean (e.zero_crossing_rate y), e.npStd (e.zero_crossing_rate y)]
  ++ e.npMeanRows (e.chroma_stft y) ++ e.npMeanRows (e.spectral_contrast y)

/-- `SyntheticSpeechDetector.extract_features`.  Its input here is the
result of the external decode + trim steps: `.error` when `librosa.load`
or `librosa.effects.trim` raised (the `except` on lines 78–80 turns any
exception into `None`), `.ok y_trim` the trimmed signal otherwise.  A
trimmed signal shorter than `minLength` samples also yields `None`
(lines 32–34); otherwise the signal is length-fixed, normalized, and the
67 features are assembled. -/
def extract_features (e : Ext) (decoded : Except String (List ℚ)) :
    Option (List ℚ) :=
  match decoded with
  | .error _ => none
  | .ok y_trim =>
    if y_trim.length < minLength then none
    else some (assembleFeatures e (preprocess y_trim))

/-- The trained classifier artifact: its declared class list
(`model.classes_`) and its `predict_proba` row
`(probabilities[0], probabilities[1])`. -/
structure Model where
  classes : List ℤ
  predict_proba : List ℚ → ℚ × ℚ

/-- `SyntheticSpeechDetector.__init__` (lines 15–21): load model and
scaler, keep the threshold, and fail unless `model.classes_` equals
`[0, 1]` (`np.array_equal`, an exact shape-and-values comparison). -/
def initDetector (model : Model) (scaler : List ℚ → List ℚ) (threshold : ℚ) :
    Except String (Model × (List ℚ → List ℚ) × ℚ) :=
  if model.classes = [0, 1] then .ok (model, scaler, threshold)
  else .error ("Invalid model classes: " ++ toString model.classes)

/-- The success dictionary returned by `detect` (lines 118–125). -/
structure DetectionSuccess where
  prediction : String
  confidence : ℚ
  bonafide_probability : ℚ
  synthetic_probability : ℚ
  threshold : ℚ
  note : String
deriving DecidableEq

/-- A `detect` return value: the success dictionary or an
`{'error': ...}` dictionary. -/
inductive DetectResult where
  | ok (r : DetectionSuccess)
  | err (msg : String)
deriving DecidableEq

/-- The keys of the dictionary `detect` returns, at each return site. -/
def resultKeys : DetectResult → List String
  | .ok _ => ["prediction", "confidence", "bonafide_probability",
              "synthetic_probability", "threshold", "note"]
  | .err _ => ["error"]

/-- Lines 111–116 of `detect`: the threshold decision.  Classify as
Synthetic exactly when the synthetic probability exceeds the threshold;
the confidence is the chosen class's probability. -/
def decideLabel (bonafide_prob synthetic_prob threshold : ℚ) : String × ℚ :=
  if synthetic_prob > threshold then ("Synthetic", synthetic_prob)
  else ("Bonafide", bonafide_prob)

/-- Modelled from the spec (§4.5): the argmax decision mode the
specification describes — predicted label is the class with the higher
probability, confidence is that probability, no threshold involved.
Stated for comparison with `decideLabel`, the code's only decision rule. -/
def argmaxDecision (bonafide_prob synthetic_prob : ℚ) : String × ℚ :=
  if synthetic_prob > bonafide_prob then ("Synthetic", synthetic_prob)
  else ("Bonafide", bonafide_prob)

/-- `SyntheticSpeechDetector.detect`, lines 89–125, given the extracted
features: `None` features yield the single untagged error dictionary;
otherwise the features are scaled, the class probabilities read off, and
the threshold decision taken. -/
def detect (threshold : ℚ) (scaler : List ℚ → List ℚ)
    (predict_proba : List ℚ → ℚ × ℚ) (features : Option (List ℚ)) :
    DetectResult :=
  match features with
  | none => .err "Failed to extract features. Audio may be too short or corrupted."
  | some fv =>
    let p := predict_proba (scaler fv)
    let d := decideLabel p.1 p.2 threshold
    .ok ⟨d.1, d.2, p.1, p.2, threshold, "Using threshold: " ++ toString threshold⟩

/-- The whole per-request pipeline: `detect` on the features extracted
from the decoded-and-trimmed input. -/
def detectPipeline (e : Ext) (threshold : ℚ) (scaler : List ℚ → List ℚ)
    (predict_proba : List ℚ → ℚ × ℚ) (decoded : Except String (List ℚ)) :
    DetectResult :=
  detect threshold scaler predict_proba (extract_features e decoded)

/-- The prediction field of a result, when it is a success. -/
def predictionOf : DetectResult → Option String
  | .ok r => some r.prediction
  | .err _ => none

/-- The confidence field of a result, when it is a success. -/
def confidenceOf : DetectResult → Option ℚ
  | .ok r => some r.confidence
  | .err _ => none

/-- `streamlit_app.py` lines 206–219: the reliability band the dashboard
derives from the confidence, with its hardcoded cut-points. -/
def reliability (confidence : ℚ) : String :=
  if confidence > 0.95 then "Very High 🟢"
  else if confidence > 0.85 then "High 🟡"
  else if confidence > 0.75 then "Moderate 🟠"
  else "Low 🔴"

/-- A model whose declared class list is `[0, 2]`: concrete input for the
load-time validation. -/
def badModel : Model := ⟨[0, 2], fun _ => (0, 0)⟩

/-- A concrete instantiation of the external collaborators, used to
evaluate the pipeline on explicit inputs: every librosa feature is a
constant of the shape librosa guarantees (20 MFCC rows, 12 chroma rows,
7 contrast rows, one per-frame series for the scalar descriptors), and
the numpy aggregations are row sums. -/
def extConst : Ext :=
  ⟨fun _ => List.replicate 20 [0], fun _ => [0], fun _ => [0], fun _ => [0],
    fun _ => [0], fun _ => List.replicate 12 [0], fun _ => List.replicate 7 [0],
    fun l => l.sum, fun l => l.sum,
    fun m => m.map (fun r => r.sum), fun m => m.map (fun r => r.sum)⟩

/-- A concrete trimmed signal of exactly the minimum accepted length. -/
def sig0 : List ℚ := List.replicate minLength 1

end SpeechDetector

namespace SpeechDetector

/-- C1: in threshold mode `detect` predicts Synthetic iff the synthetic
probability exceeds the threshold, otherwise Bonafide, and the reported
confidence is the chosen label's probability; the success dictionary also
carries both probabilities and the active threshold. -/
theorem detect_threshold_mode (t b s : ℚ) (scaler : List ℚ → List ℚ)
    (predict_proba : List ℚ → ℚ × ℚ) (fv : List ℚ)
    (hp : predict_proba (scaler fv) = (b, s)) :
    (s > t → detect t scaler predict_proba (some fv) =
      .ok ⟨"Synthetic", s, b, s, t, "Using threshold: " ++ toString t⟩)
    ∧ (¬ s > t → detect t scaler predict_proba (some fv) =
      .ok ⟨"Bonafide", b, b, s, t, "Using threshold: " ++ toString t⟩)
    ∧ (predictionOf (detect t scaler predict_proba (some fv)) =
        some "Synthetic" ↔ s > t) := by
  constructor
  · intro h
    simp [detect, decideLabel, hp, h]
  constructor
  · intro h
    simp [detect, decideLabel, hp, h]
  · by_cases h : s > t
    · simp [detect, decideLabel, predictionOf, hp, h]
    · simp [detect, decideLabel, predictionOf, hp, h]

/-- C1 witness: with probabilities (0.2, 0.8) and threshold 0.9 the result
is prediction Bonafide with confidence 0.2. -/
theorem detect_threshold_mode_witness :
    (fun (_ : List ℚ) => ((0.2 : ℚ), (0.8 : ℚ))) (id ([] : List ℚ)) = (0.2, 0.8)
    ∧ detect 0.9 id (fun _ => ((0.2 : ℚ), (0.8 : ℚ))) (some []) =
      .ok ⟨"Bonafide", 0.2, 0.2, 0.8, 0.9, "Using threshold: " ++ toString (0.9 : ℚ)⟩ :=
  ⟨rfl, (detect_threshold_mode 0.9 0.2 0.8 id (fun _ => (0.2, 0.8)) [] rfl).2.1
    (by norm_num)⟩

/-- C3: whenever the loaded model's class set differs from `{0, 1}`,
`__init__` raises (construction returns an error naming the offending
classes) and the detector never initializes. -/
theorem init_rejects_bad_classes (m : Model) (scaler : List ℚ → List ℚ)
    (t : ℚ) (h : m.classes.toFinset ≠ ({0, 1} : Finset ℤ)) :
    initDetector m scaler t =
      .error ("Invalid model classes: " ++ toString m.classes) := by
  have hne : m.classes ≠ [0, 1] := by
    intro he
    apply h
    rw [he]
    decide
  simp [initDetector, hne]

/-- C3 witness: a model with class list `[0, 2]` (class set `{0, 2}`) is
rejected at construction time. -/
theorem init_rejects_bad_classes_witness :
    badModel.classes.toFinset ≠ ({0, 1} : Finset ℤ)
    ∧ initDetector badModel id defaultThreshold =
      .error ("Invalid model classes: " ++ toString badModel.classes) :=
  ⟨by decide, init_rejects_bad_classes badModel id defaultThreshold (by decide)⟩

/-- C5 counterexample: the detector has no argmax mode.  Its only decision
rule is the threshold rule: with probabilities (0.4, 0.6) and the default
threshold 0.7 it predicts Bonafide with confidence 0.4, while the argmax
rule the spec describes would predict Synthetic with confidence 0.6. -/
theorem no_argmax_mode :
    predictionOf (detect defaultThreshold id
      (fun _ => ((0.4 : ℚ), (0.6 : ℚ))) (some [])) = some "Bonafide"
    ∧ confidenceOf (detect defaultThreshold id
      (fun _ => ((0.4 : ℚ), (0.6 : ℚ))) (some [])) = some 0.4
    ∧ argmaxDecision 0.4 0.6 = ("Synthetic", 0.6) := by
  refine ⟨?_, ?_, ?_⟩ <;>
    norm_num [detect, decideLabel, predictionOf, confidenceOf,
      argmaxDecision, defaultThreshold]

/-- C5 amended: the decision always goes through the threshold rule; with
probabilities (0.2, 0.8) and the default threshold 0.7 the synthetic
probability exceeds the threshold, so the result is prediction Synthetic
with confidence 0.8 — which coincides with what argmax would give on this
pair. -/
theorem detect_scenario_argmax_agreement :
    predictionOf (detect defaultThreshold id
      (fun _ => ((0.2 : ℚ), (0.8 : ℚ))) (some [])) = some "Synthetic"
    ∧ confidenceOf (detect defaultThreshold id
      (fun _ => ((0.2 : ℚ), (0.8 : ℚ))) (some [])) = some 0.8
    ∧ decideLabel 0.2 0.8 defaultThreshold = argmaxDecision 0.2 0.8 := by
  refine ⟨?_, ?_, ?_⟩ <;>
    norm_num [detect, decideLabel, predictionOf, confidenceOf,
      argmaxDecision, defaultThreshold]

/-- C6: threshold monotonicity.  For fixed probabilities, if the verdict
at threshold `t1` is Bonafide and `t1 ≤ t2`, the verdict at `t2` is also
Bonafide: raising the threshold never flips Bonafide to Synthetic. -/
theorem threshold_monotone (b s t1 t2 : ℚ) (ht : t1 ≤ t2)
    (h : (decideLabel b s t1).1 = "Bonafide") :
    (decideLabel b s t2).1 = "Bonafide" := by
  by_cases h1 : s > t1
  · rw [decideLabel, if_pos h1] at h
    have hss : ("Synthetic" : String) = "Bonafide" := h
    exact absurd hss (by decide)
  · have h2 : ¬ s > t2 := fun hgt => h1 (lt_of_le_of_lt ht hgt)
    rw [decideLabel, if_neg h2]

/-- The peak absolute amplitude is never negative. -/
theorem maxAbs_nonneg (y : List ℚ) : 0 ≤ maxAbs y := by
  unfold maxAbs
  induction y with
  | nil => simp
  | cons x xs ih => simp [le_max_iff, abs_nonneg]

/-- Dividing every sample by a positive constant divides the peak by it. -/
theorem maxAbs_map_div (y : List ℚ) (m : ℚ) (hm : 0 < m) :
    maxAbs (y.map (fun x => x / m)) = maxAbs y / m := by
  unfold maxAbs
  induction y with
  | nil => simp
  | cons x xs ih =>
    simp only [List.map_cons, List.foldr_cons] at ih ⊢
    rw [ih, abs_div, abs_of_pos hm, max_div_div_right hm.le]

/-- C7 counterexample: on the one-sample signal [1/2] the code divides by
the peak itself, yielding [1], while the spec's rule — divide by
(peak + 1e-6) — would yield [500000/500001]; the two disagree. -/
theorem normalize_ne_specNormalize :
    normalize [(1 : ℚ)/2] = [1]
    ∧ specNormalize [(1 : ℚ)/2] = [500000/500001]
    ∧ normalize [(1 : ℚ)/2] ≠ specNormalize [(1 : ℚ)/2] := by
  refine ⟨?_, ?_, ?_⟩ <;>
    norm_num [normalize, specNormalize, maxAbs, max_def, abs_of_pos]

/-- C7 amended: normalization divides every sample by the peak absolute
amplitude itself (no 1e-6 offset), and is skipped exactly when the peak is
zero, in which case the signal is returned unchanged. -/
theorem normalize_divides_by_peak (y : List ℚ) (i : ℕ) (h : i < y.length) :
    (maxAbs y = 0 → normalize y = y)
    ∧ (maxAbs y ≠ 0 →
        (normalize y).getD i 0 = y.getD i 0 / maxAbs y) := by
  constructor
  · intro h0
    simp [normalize, h0]
  · intro h0
    have hpos : 0 < maxAbs y := lt_of_le_of_ne (maxAbs_nonneg y) (Ne.symm h0)
    rw [normalize, if_pos hpos]
    rw [List.getD_eq_getElem?_getD, List.getElem?_map,
      List.getD_eq_getElem?_getD, List.getElem?_eq_getElem h]
    simp

/-- C7 witness: on the signal [1/2, 0] the peak is 1/2, and sample 0 of
the normalized signal is (1/2) / (1/2) = 1. -/
theorem normalize_divides_by_peak_witness :
    0 < ([(1 : ℚ)/2, 0] : List ℚ).length
    ∧ maxAbs [(1 : ℚ)/2, 0] ≠ 0
    ∧ (normalize [(1 : ℚ)/2, 0]).getD 0 0 =
        ([(1 : ℚ)/2, 0] : List ℚ).getD 0 0 / maxAbs [(1 : ℚ)/2, 0] :=
  ⟨by decide, by norm_num [maxAbs, max_def],
    (normalize_divides_by_peak [(1 : ℚ)/2, 0] 0 (by decide)).2
      (by norm_num [maxAbs, max_def])⟩

/-- C8: normalization is idempotent.  For a signal with nonzero peak, the
normalized signal has peak exactly 1, and normalizing again leaves it
unchanged. -/
theorem normalize_idempotent (y : List ℚ) (h : maxAbs y ≠ 0) :
    maxAbs (normalize y) = 1 ∧ normalize (normalize y) = normalize y := by
  have hpos : 0 < maxAbs y := lt_of_le_of_ne (maxAbs_nonneg y) (Ne.symm h)
  have h1 : maxAbs (normalize y) = 1 := by
    rw [normalize, if_pos hpos, maxAbs_map_div y _ hpos,
      div_self (ne_of_gt hpos)]
  have hpos1 : 0 < maxAbs (normalize y) := by
    rw [h1]
    exact one_pos
  refine ⟨h1, ?_⟩
  rw [normalize, if_pos hpos1, h1]
  simp

/-- C8 witness: on the signal [1/2] the peak is nonzero, the normalized
peak is 1, and re-normalizing is a no-op. -/
theorem normalize_idempotent_witness :
    maxAbs [(1 : ℚ)/2] ≠ 0
    ∧ maxAbs (normalize [(1 : ℚ)/2]) = 1
    ∧ normalize (normalize [(1 : ℚ)/2]) = normalize [(1 : ℚ)/2] :=
  ⟨by norm_num [maxAbs, max_def],
    (normalize_idempotent [(1 : ℚ)/2] (by norm_num [maxAbs, max_def])).1,
    (normalize_idempotent [(1 : ℚ)/2] (by norm_num [maxAbs, max_def])).2⟩

/-- C6 witness: with probabilities (0.2, 0.8), the Bonafide verdict at
threshold 0.9 persists at the larger threshold 0.95. -/
theorem threshold_monotone_witness :
    (0.9 : ℚ) ≤ 0.95 ∧ (decideLabel 0.2 0.8 0.9).1 = "Bonafide"
    ∧ (decideLabel 0.2 0.8 0.95).1 = "Bonafide" :=
  ⟨by norm_num, by norm_num [decideLabel],
    threshold_monotone 0.2 0.8 0.9 0.95 (by norm_num) (by norm_num [decideLabel])⟩

/-- C2: once the minimum-length check passes, the extracted feature
vector is the assembly, in the source's fixed order, of the MFCC row
means and stds, the six spectral descriptors, the zero-crossing-rate
mean/std, the chroma row means and the spectral-contrast row means — and
its length is exactly 67, independent of the input signal, given the
collaborators' shape contracts (20 MFCC coefficients, 12 pitch classes,
7 contrast sub-bands, one aggregate per row). -/
theorem extract_features_shape (e : Ext) (y fv : List ℚ)
    (hA : (e.npMeanRows (e.mfcc (preprocess y))).length = 20)
    (hB : (e.npStdRows (e.mfcc (preprocess y))).length = 20)
    (hC : (e.npMeanRows (e.chroma_stft (preprocess y))).length = 12)
    (hD : (e.npMeanRows (e.spectral_contrast (preprocess y))).length = 7)
    (hfv : extract_features e (.ok y) = some fv) :
    fv = assembleFeatures e (preprocess y) ∧ fv.length = 67 := by
  by_cases hlen : y.length < minLength
  · simp [extract_features, hlen] at hfv
  · simp [extract_features, hlen] at hfv
    refine ⟨hfv.symm, ?_⟩
    rw [← hfv]
    simp [assembleFeatures, List.length_append, hA, hB, hC, hD]

/-- On the concrete minimum-length signal, the minimum-length check
passes and extraction reduces to the feature assembly. -/
theorem sig0_extract :
    extract_features extConst (.ok sig0) =
      some (assembleFeatures extConst (preprocess sig0)) := by
  have hlen : ¬ sig0.length < minLength := by
    rw [sig0, List.length_replicate]
    exact lt_irrefl _
  simp only [extract_features]
  rw [if_neg hlen]

/-- C2 witness: on a concrete minimum-length signal with concrete
collaborators of the contracted shapes, extraction succeeds and the
vector has length 67. -/
theorem extract_features_shape_witness :
    (extConst.npMeanRows (extConst.mfcc (preprocess sig0))).length = 20
    ∧ (extConst.npStdRows (extConst.mfcc (preprocess sig0))).length = 20
    ∧ (extConst.npMeanRows (extConst.chroma_stft (preprocess sig0))).length = 12
    ∧ (extConst.npMeanRows (extConst.spectral_contrast (preprocess sig0))).length = 7
    ∧ extract_features extConst (.ok sig0) =
        some (assembleFeatures extConst (preprocess sig0))
    ∧ (assembleFeatures extConst (preprocess sig0)).length = 67 :=
  ⟨by simp [extConst], by simp [extConst], by simp [extConst], by simp [extConst],
    sig0_extract,
    (extract_features_shape extConst sig0 _ (by simp [extConst])
      (by simp [extConst]) (by simp [extConst]) (by simp [extConst])
      sig0_extract).2⟩

/-- C4 counterexample: a trimmed-to-nothing input (the all-zero signal of
Scenario A trims to the empty signal) produces exactly the same untagged
error dictionary as a decode failure — there is no distinct
InsufficientAudioError tag anywhere in the result. -/
theorem insufficient_audio_untagged :
    detectPipeline extConst defaultThreshold id (fun _ => (0, 0)) (.ok []) =
      .err "Failed to extract features. Audio may be too short or corrupted."
    ∧ detectPipeline extConst defaultThreshold id (fun _ => (0, 0))
        (.error "decode failure") =
      detectPipeline extConst defaultThreshold id (fun _ => (0, 0)) (.ok []) := by
  constructor <;> rfl

/-- C4 amended: every trimmed input shorter than 0.5 s at 16 kHz (8000
samples, including zero length) is rejected — extract_features returns
None and detect returns the error dictionary — but the failure is the
single untagged error message shared with decode/feature failures, not a
distinct InsufficientAudioError. -/
theorem short_audio_rejected (e : Ext) (t : ℚ) (scaler : List ℚ → List ℚ)
    (proba : List ℚ → ℚ × ℚ) (y : List ℚ) (h : y.length < minLength) :
    extract_features e (.ok y) = none
    ∧ detectPipeline e t scaler proba (.ok y) =
      .err "Failed to extract features. Audio may be too short or corrupted." := by
  constructor
  · simp [extract_features, h]
  · simp [detectPipeline, extract_features, detect, h]

/-- C4 witness: a three-sample trimmed signal is below the 8000-sample
minimum and yields the error dictionary. -/
theorem short_audio_rejected_witness :
    ([(0 : ℚ), 0, 0] : List ℚ).length < minLength
    ∧ detectPipeline extConst defaultThreshold id (fun _ => (1, 0))
        (.ok [0, 0, 0]) =
      .err "Failed to extract features. Audio may be too short or corrupted." :=
  ⟨by decide,
    (short_audio_rejected extConst defaultThreshold id (fun _ => (1, 0))
      [0, 0, 0] (by decide)).2⟩

/-- C10: failure causes are indistinguishable at the public interface.
A too-short trimmed signal and a decoding exception both make
extract_features return None, and detect then returns the identical
untagged error dictionary in both cases. -/
theorem failure_causes_indistinguishable (e : Ext) (y : List ℚ)
    (msg : String) (t : ℚ) (scaler : List ℚ → List ℚ)
    (proba : List ℚ → ℚ × ℚ) (hshort : y.length < minLength) :
    extract_features e (.ok y) = none
    ∧ extract_features e (.error msg) = none
    ∧ detectPipeline e t scaler proba (.ok y) =
        .err "Failed to extract features. Audio may be too short or corrupted."
    ∧ detectPipeline e t scaler proba (.error msg) =
        detectPipeline e t scaler proba (.ok y) := by
  refine ⟨?_, rfl, ?_, ?_⟩ <;>
    simp [extract_features, detectPipeline, detect, hshort]

/-- C10 witness: the empty trimmed signal and a corrupted-stream decode
failure produce the same detection result. -/
theorem failure_causes_indistinguishable_witness :
    ([] : List ℚ).length < minLength
    ∧ detectPipeline extConst defaultThreshold id
        (fun _ => ((1 : ℚ)/2, (1 : ℚ)/2)) (.error "corrupted stream") =
      detectPipeline extConst defaultThreshold id
        (fun _ => ((1 : ℚ)/2, (1 : ℚ)/2)) (.ok []) :=
  ⟨by decide,
    (failure_causes_indistinguishable extConst [] "corrupted stream"
      defaultThreshold id (fun _ => ((1 : ℚ)/2, (1 : ℚ)/2)) (by decide)).2.2.2⟩

/-- C9 counterexample: the success dictionary of detect carries exactly
the keys prediction, confidence, bonafide_probability,
synthetic_probability, threshold and note — no reliability band is part
of any detection result. -/
theorem no_reliability_band_in_result :
    resultKeys (detect defaultThreshold id
      (fun _ => ((0.2 : ℚ), (0.8 : ℚ))) (some [])) =
      ["prediction", "confidence", "bonafide_probability",
       "synthetic_probability", "threshold", "note"]
    ∧ "reliability" ∉ resultKeys (detect defaultThreshold id
        (fun _ => ((0.2 : ℚ), (0.8 : ℚ))) (some []))
    ∧ "reliability_band" ∉ resultKeys (detect defaultThreshold id
        (fun _ => ((0.2 : ℚ), (0.8 : ℚ))) (some [])) := by
  refine ⟨rfl, ?_, ?_⟩ <;> decide

/-- C9 amended: the reliability band is computed only by the dashboard,
from the confidence, with the hardcoded cut-points 0.95 / 0.85 / 0.75:
Very High above 0.95, High in (0.85, 0.95], Moderate in (0.75, 0.85],
Low at or below 0.75. -/
theorem reliability_bands (c : ℚ) :
    (c > 0.95 → reliability c = "Very High 🟢")
    ∧ (0.85 < c ∧ c ≤ 0.95 → reliability c = "High 🟡")
    ∧ (0.75 < c ∧ c ≤ 0.85 → reliability c = "Moderate 🟠")
    ∧ (c ≤ 0.75 → reliability c = "Low 🔴") := by
  refine ⟨fun h => ?_, fun h => ?_, fun h => ?_, fun h => ?_⟩
  · rw [reliability, if_pos h]
  · rw [reliability, if_neg (not_lt.mpr h.2), if_pos h.1]
  · have h95 : ¬ c > 0.95 := not_lt.mpr (h.2.trans (by norm_num))
    have h85 : ¬ c > 0.85 := not_lt.mpr h.2
    rw [reliability, if_neg h95, if_neg h85, if_pos h.1]
  · have h95 : ¬ c > 0.95 := not_lt.mpr (h.trans (by norm_num))
    have h85 : ¬ c > 0.85 := not_lt.mpr (h.trans (by norm_num))
    have h75 : ¬ c > 0.75 := not_lt.mpr h
    rw [reliability, if_neg h95, if_neg h85, if_neg h75]

/-- C9 witness: a confidence of 0.9 falls in the High band. -/
theorem reliability_bands_witness :
    (0.85 : ℚ) < 0.9 ∧ (0.9 : ℚ) ≤ 0.95 ∧ reliability 0.9 = "High 🟡" :=
  ⟨by norm_num, by norm_num,
    (reliability_bands 0.9).2.1 ⟨by norm_num, by norm_num⟩⟩

end SpeechDetector
